import Mathlib

/-!
# Verification of the fan-club subscription core (`app.py`)

Shallow embedding of the subscription lifecycle logic of the Flask
application: the date-range calculator, the overlap validator, the
subscription registrar (`join_funclub_execute`) and the subscription
terminator (`customer_del_execute`), together with proofs of the
specified properties.

Dates are represented by their proleptic-Gregorian ordinal (rata die,
`date.toordinal()` in Python): day 1 is 0001-01-01.  This is faithful
because Python `date` objects are in bijection with ordinals in
`[1, 3652059]`, `date + timedelta(days=n)` is exactly ordinal addition,
and the SQLite comparisons `start_date < ?` / `end_date > ?` compare the
ISO `YYYY-MM-DD` strings stored for dates, whose lexicographic order
coincides with ordinal order for years 1–9999.
-/

deriving instance DecidableEq for Except

namespace FunClub

/-- Is `c` an ASCII decimal digit?  (Embeds the digit class used by the
CPython `_strptime` regex; the embedding restricts attention to ASCII
digit characters.) -/
def isDig (c : Char) : Bool := 48 ≤ c.toNat && c.toNat ≤ 57

/-- Numeric value of an ASCII digit character. -/
def dv (c : Char) : Nat := c.toNat - 48

/-- Gregorian leap-year test, as in Python `calendar.isleap`. -/
def isLeap (y : Nat) : Bool := y % 4 = 0 && (y % 100 ≠ 0 || y % 400 = 0)

/-- Number of days in month `m` of year `y` (Python `_days_in_month`). -/
def daysInMonth (y m : Nat) : Nat :=
  if m = 2 then (if isLeap y then 29 else 28)
  else if m = 4 ∨ m = 6 ∨ m = 9 ∨ m = 11 then 30
  else 31

/-- Days in year `y` strictly before month `m` (Python `_days_before_month`). -/
def daysBeforeMonth (y m : Nat) : Nat :=
  ((List.range (m - 1)).map (fun i => daysInMonth y (i + 1))).sum

/-- Proleptic Gregorian ordinal of the date `y-m-d` (Python
`date(y, m, d).toordinal()`): 0001-01-01 is day 1. -/
def toOrdinal (y m d : Nat) : Nat :=
  365 * (y - 1) + (y - 1) / 4 - (y - 1) / 100 + (y - 1) / 400
    + daysBeforeMonth y m + d

/-- Ordinal of `date.max = 9999-12-31`, the largest Python date. -/
def maxDateOrdinal : Nat := toOrdinal 9999 12 31

/-- Match of the `%m` component of the CPython `_strptime` regex
`(1[0-2]|0[1-9]|[1-9])` at the head of the character list; returns the
month value and the unconsumed suffix.  Alternatives are tried left to
right, as the regex engine does; when a two-character alternative
matches, the one-character fallback `[1-9]` cannot rescue an overall
match (the next pattern character is the literal `-`, but the input
character it would face is a digit), so committing is faithful. -/
def monthAlt : List Char → Option (Nat × List Char)
  | [] => none
  | c1 :: rest1 =>
    if c1.toNat = 49 then
      -- leading '1': try "1[0-2]", else fall back to month 1
      match rest1 with
      | [] => some (1, [])
      | c2 :: rest2 =>
        if 48 ≤ c2.toNat ∧ c2.toNat ≤ 50 then some (10 + dv c2, rest2)
        else some (1, rest1)
    else if c1.toNat = 48 then
      -- leading '0': only "0[1-9]"
      match rest1 with
      | [] => none
      | c2 :: rest2 =>
        if 49 ≤ c2.toNat ∧ c2.toNat ≤ 57 then some (dv c2, rest2) else none
    else if 50 ≤ c1.toNat ∧ c1.toNat ≤ 57 then some (dv c1, rest1)
    else none

/-- Match of the `%d` component of the CPython `_strptime` regex
`(3[01]|[12]\d|0[1-9]|[1-9])` at the head of the character list. -/
def dayAlt : List Char → Option (Nat × List Char)
  | [] => none
  | c1 :: rest1 =>
    if c1.toNat = 51 then
      -- leading '3': try "3[01]", else day 3 via "[1-9]"
      match rest1 with
      | [] => some (3, [])
      | c2 :: rest2 =>
        if 48 ≤ c2.toNat ∧ c2.toNat ≤ 49 then some (30 + dv c2, rest2)
        else some (3, rest1)
    else if 49 ≤ c1.toNat ∧ c1.toNat ≤ 50 then
      -- leading '1' or '2': try "[12]\d", else the single digit
      match rest1 with
      | [] => some (dv c1, [])
      | c2 :: rest2 =>
        if isDig c2 then some (10 * dv c1 + dv c2, rest2)
        else some (dv c1, rest1)
    else if c1.toNat = 48 then
      -- leading '0': only "0[1-9]"
      match rest1 with
      | [] => none
      | c2 :: rest2 =>
        if 49 ≤ c2.toNat ∧ c2.toNat ≤ 57 then some (dv c2, rest2) else none
    else if 52 ≤ c1.toNat ∧ c1.toNat ≤ 57 then some (dv c1, rest1)
    else none

/-- Embedding of `datetime.strptime(s, '%Y-%m-%d').date()` (app.py line
519): `%Y` matches exactly four digits, the separators are literal, the
whole string must be consumed, and the resulting `(y, m, d)` must be a
valid Python date (`1 ≤ y ≤ 9999`, `1 ≤ d ≤ daysInMonth y m`; the month
is valid by construction of the regex).  Returns the date's ordinal, or
`none` when Python raises `ValueError`. -/
def strptime_date (s : String) : Option Nat :=
  match s.data with
  | y1 :: y2 :: y3 :: y4 :: c :: rest =>
    if isDig y1 ∧ isDig y2 ∧ isDig y3 ∧ isDig y4 ∧ c.toNat = 45 then
      let y := 1000 * dv y1 + 100 * dv y2 + 10 * dv y3 + dv y4
      match monthAlt rest with
      | some (m, c2 :: rest2) =>
        if c2.toNat = 45 then
          match dayAlt rest2 with
          | some (d, []) =>
            if 1 ≤ y ∧ d ≤ daysInMonth y m then some (toOrdinal y m d)
            else none
          | _ => none
        else none
      | _ => none
    else none
  | _ => none

/-- Embedding of `start_date + timedelta(days=duration_month * 30)`
(app.py line 526).  Python raises `OverflowError` when the result falls
outside `[date.min, date.max]` (ordinals `[1, 3652059]`) or when the
`timedelta` itself is out of range (subsumed by the ordinal bound for
any in-range start date); that is the `none` case. -/
def computeEndDate (start : Int) (durationMonths : Int) : Option Int :=
  let e := start + durationMonths * 30
  if 1 ≤ e ∧ e ≤ (maxDateOrdinal : Int) then some e else none

/-! ## Relational store -/

/-- A row of the `Artist` table. -/
structure ArtistRow where
  id : Int
  name : String
  debut_year : Int
deriving DecidableEq

/-- A row of the `Customer` table. -/
structure CustomerRow where
  id : Int
  name : String
  email : String
  phone : String
  address : String
deriving DecidableEq

/-- A row of the `SubscriptionCourse` table. -/
structure CourseRow where
  id : Int
  course_name : String
  duration_months : Int
deriving DecidableEq

/-- A row of the `Subscription` table; dates are stored as ordinals. -/
structure SubRow where
  id : Int
  customer_id : Int
  group_id : Int
  course_id : Int
  start_date : Int
  end_date : Int
deriving DecidableEq

/-- A row of the `EventType` table. -/
structure EventTypeRow where
  id : Int
  type_name : String
deriving DecidableEq

/-- A row of the `Event` table. -/
structure EventRow where
  id : Int
  name : String
  group_id : Int
  type_id : Int
deriving DecidableEq

/-- A row of the `EventParticipation` table. -/
structure PartRow where
  subscription_id : Int
  event_id : Int
  participation_date : String
deriving DecidableEq

/-- The relational store (`fun.db`): one list of rows per table, in
insertion (rowid) order, which is the order unordered `SELECT`s return. -/
structure Store where
  artists : List ArtistRow
  customers : List CustomerRow
  courses : List CourseRow
  subscriptions : List SubRow
  eventTypes : List EventTypeRow
  events : List EventRow
  participations : List PartRow
deriving DecidableEq

/-! ## Operations -/

/-- Error outcomes of the registrar `join_funclub_execute`.  The first
four are the flash-and-redirect branches of the source; the last two are
*unhandled Python exceptions* (the request dies with a 500 error):
`lookupCrash` is the `TypeError` raised by subscripting the `None` that
`fetchone()` returns when an artist or course name matches no row
(app.py lines 525, 529, 531), and `overflowCrash` is the
`OverflowError` raised by `timedelta`/date addition when the computed
end date falls outside Python's date range (line 526). -/
inductive RegError where
  | invalidId
  | duplicateId
  | invalidDate
  | duplicateMembership
  | lookupCrash
  | overflowCrash
deriving DecidableEq

/-- Error outcome of the terminator `customer_del_execute` for an
integral subscription id: the id matches no `Subscription` row. -/
inductive DelError where
  | notFound
deriving DecidableEq

/-- The POST form data of a registration request.  `subscription_id` is
the result of `int(request.form.get('id',''))`: `none` when the field
does not parse as an integer (`ValueError`). -/
structure JoinRequest where
  subscription_id : Option Int
  artist : String
  course : String
  start_date : String
deriving DecidableEq

/-- The overlap validator: embedding of the query at app.py line 533,
`SELECT id FROM Subscription WHERE customer_id = ? and group_id = ? and
start_date < ? and end_date > ?` with parameters
`(id_num, artist_id, end_date, start_date)`, tested for a non-`None`
`fetchone()`. -/
def overlap_query (subs : List SubRow) (cid gid startD endD : Int) : Bool :=
  (subs.find? (fun r =>
    r.customer_id == cid && r.group_id == gid &&
    decide (r.start_date < endD) && decide (r.end_date > startD))).isSome

/-- The validation-and-computation part of `join_funclub_execute`
(app.py lines 500–536), which reads only the `Artist`,
`SubscriptionCourse` and `Subscription` tables: parse and bound-check
the subscription id, reject a duplicate id, parse the start date,
look up the course's `duration_months` (an unguarded `fetchone()`
subscript: `lookupCrash` when the name matches no row), compute the
end date, look up the artist id and the course id (again unguarded),
and run the overlap validator.  On success it returns the row that the
`INSERT` at lines 539–542 will store. -/
def join_core (artists : List ArtistRow) (courses : List CourseRow)
    (subs : List SubRow) (cid : Int) (req : JoinRequest) :
    Except RegError SubRow :=
  match req.subscription_id with
  | none => .error .invalidId
  | some sid =>
    if sid ≤ 0 then .error .invalidId
    else if (subs.find? (fun r => r.id == sid)).isSome then .error .duplicateId
    else
      match strptime_date req.start_date with
      | none => .error .invalidDate
      | some startOrd =>
        match courses.find? (fun c => c.course_name == req.course) with
        | none => .error .lookupCrash
        | some course =>
          match computeEndDate (startOrd : Int) course.duration_months with
          | none => .error .overflowCrash
          | some endOrd =>
            match artists.find? (fun a => a.name == req.artist) with
            | none => .error .lookupCrash
            | some artist =>
              match courses.find? (fun c => c.course_name == req.course) with
              | none => .error .lookupCrash
              | some course2 =>
                if overlap_query subs cid artist.id (startOrd : Int) endOrd
                then .error .duplicateMembership
                else .ok ⟨sid, cid, artist.id, course2.id,
                          (startOrd : Int), endOrd⟩

/-- Embedding of `join_funclub_execute` (app.py lines 488–549), the
subscription registrar, for route customer id `cid` and form data `req`.
Returns the resulting store (unchanged except on the successful insert,
since every failure path returns before `INSERT`/`commit`) together with
the outcome.  The model store has no constraints, so the `INSERT` itself
cannot fail; the duplicate-id check has already run. -/
def join_funclub_execute (s : Store) (cid : Int) (req : JoinRequest) :
    Store × Except RegError Unit :=
  match join_core s.artists s.courses s.subscriptions cid req with
  | .error e => (s, .error e)
  | .ok row =>
    ({ s with subscriptions := s.subscriptions ++ [row] }, .ok ())

/-- Embedding of `customer_del_execute` (app.py lines 567–599), the
subscription terminator, for an integral subscription id `i`:
`SELECT * FROM Subscription WHERE id = ?` / `fetchone()`, then
`DELETE FROM Subscription WHERE id = ?`, returning the found row's
`customer_id` (used for the redirect).  `DELETE` removes every row
whose id matches, which the list filter mirrors. -/
def customer_del_execute (s : Store) (i : Int) :
    Store × Except DelError Int :=
  match s.subscriptions.find? (fun r => r.id == i) with
  | none => (s, .error .notFound)
  | some row =>
    ({ s with subscriptions := s.subscriptions.filter (fun r => !(r.id == i)) },
      .ok row.customer_id)

/-! ## Invariant and reachability -/

/-- Two half-open ordinal intervals intersect: some day lies in both. -/
def intervalsIntersect (s1 e1 s2 e2 : Int) : Prop :=
  max s1 s2 < min e1 e2

instance (s1 e1 s2 e2 : Int) : Decidable (intervalsIntersect s1 e1 s2 e2) := by
  unfold intervalsIntersect; infer_instance

/-- The store invariant of spec §3: no two `Subscription` rows for the
same `(customer_id, group_id)` pair have intersecting half-open
`[start_date, end_date)` intervals. -/
def storeInv (s : Store) : Prop :=
  s.subscriptions.Pairwise (fun r1 r2 =>
    r1.customer_id = r2.customer_id → r1.group_id = r2.group_id →
    ¬ intervalsIntersect r1.start_date r1.end_date r2.start_date r2.end_date)

instance (s : Store) : Decidable (storeInv s) := by
  unfold storeInv; infer_instance

/-- Stores reachable from `s0` through the registrar and the
terminator. -/
inductive Reachable (s0 : Store) : Store → Prop where
  | refl : Reachable s0 s0
  | join (t : Store) (cid : Int) (req : JoinRequest) :
      Reachable s0 t → Reachable s0 (join_funclub_execute t cid req).1
  | del (t : Store) (i : Int) :
      Reachable s0 t → Reachable s0 (customer_del_execute t i).1

/-- The date format named by the specification, written from the spec's
words for comparison with the code's parser: a valid *strict*
`YYYY-MM-DD` calendar date — a four-digit year at least 1, a zero-padded
two-digit month `01`–`12`, a literal `-` in positions 5 and 8, and a
zero-padded two-digit day valid for that month. -/
def strictDateSpec (s : String) : Bool :=
  match s.data with
  | [y1, y2, y3, y4, s1, m1, m2, s2, d1, d2] =>
    isDig y1 && isDig y2 && isDig y3 && isDig y4 && isDig m1 && isDig m2 &&
    isDig d1 && isDig d2 && s1.toNat == 45 && s2.toNat == 45 &&
    decide (1 ≤ 1000 * dv y1 + 100 * dv y2 + 10 * dv y3 + dv y4) &&
    decide (1 ≤ 10 * dv m1 + dv m2) && decide (10 * dv m1 + dv m2 ≤ 12) &&
    decide (1 ≤ 10 * dv d1 + dv d2) &&
    decide (10 * dv d1 + dv d2 ≤
      daysInMonth (1000 * dv y1 + 100 * dv y2 + 10 * dv y3 + dv y4)
        (10 * dv m1 + dv m2))
  | _ => false

/-! ## Helper lemmas -/

/-- The overlap validator reports no overlap exactly when no row of the
pair's subscriptions strictly straddles the candidate interval. -/
theorem overlap_query_false_iff (subs : List SubRow) (cid gid sd ed : Int) :
    overlap_query subs cid gid sd ed = false ↔
      ∀ r ∈ subs, ¬(r.customer_id = cid ∧ r.group_id = gid ∧
        r.start_date < ed ∧ sd < r.end_date) := by
  constructor
  · intro h r hr hp
    have hn : subs.find? (fun r =>
        r.customer_id == cid && r.group_id == gid &&
        decide (r.start_date < ed) && decide (r.end_date > sd)) = none := by
      cases hf : subs.find? (fun r =>
          r.customer_id == cid && r.group_id == gid &&
          decide (r.start_date < ed) && decide (r.end_date > sd)) with
      | none => rfl
      | some x => simp [overlap_query, hf] at h
    have hc := List.find?_eq_none.mp hn r hr
    simp only [Bool.and_eq_true, beq_iff_eq, decide_eq_true_eq, gt_iff_lt]
      at hc
    exact hc ⟨⟨⟨hp.1, hp.2.1⟩, hp.2.2.1⟩, hp.2.2.2⟩
  · intro h
    cases hf : subs.find? (fun r =>
        r.customer_id == cid && r.group_id == gid &&
        decide (r.start_date < ed) && decide (r.end_date > sd)) with
    | none => simp [overlap_query, hf]
    | some x =>
      exfalso
      have hx := List.find?_some hf
      have hmem := List.mem_of_find?_eq_some hf
      simp only [Bool.and_eq_true, beq_iff_eq, decide_eq_true_eq, gt_iff_lt]
        at hx
      exact h x hmem ⟨hx.1.1.1, hx.1.1.2, hx.1.2, hx.2⟩

/-- A successful `join_core` returns a row whose `customer_id` is the
route customer and which passed the overlap validator against the
existing subscriptions. -/
theorem join_core_ok_shape (artists : List ArtistRow)
    (courses : List CourseRow) (subs : List SubRow) (cid : Int)
    (req : JoinRequest) (row : SubRow)
    (h : join_core artists courses subs cid req = .ok row) :
    row.customer_id = cid ∧
    overlap_query subs cid row.group_id row.start_date row.end_date
      = false := by
  unfold join_core at h
  repeat' split at h
  all_goals first
    | (injection h with h2; subst h2; exact ⟨rfl, by simp_all⟩)
    | (injection h)

/-- The registrar preserves the pairwise no-overlap invariant. -/
theorem storeInv_join_preserved (s : Store) (cid : Int) (req : JoinRequest)
    (h : storeInv s) : storeInv (join_funclub_execute s cid req).1 := by
  unfold join_funclub_execute
  cases hj : join_core s.artists s.courses s.subscriptions cid req with
  | error e => exact h
  | ok row =>
    obtain ⟨hcid, hov⟩ := join_core_ok_shape _ _ _ _ _ _ hj
    unfold storeInv at h ⊢
    simp only [List.pairwise_append]
    refine ⟨h, by simp, ?_⟩
    intro r hr b hb
    simp only [List.mem_singleton] at hb
    subst hb
    intro hc hg hint
    have hn := (overlap_query_false_iff _ _ _ _ _).mp hov r hr
    unfold intervalsIntersect at hint
    rw [max_lt_iff, lt_min_iff, lt_min_iff] at hint
    exact hn ⟨hcid ▸ hc, hg, hint.1.2, hint.2.1⟩

/-- The terminator preserves the pairwise no-overlap invariant. -/
theorem storeInv_del_preserved (s : Store) (i : Int) (h : storeInv s) :
    storeInv (customer_del_execute s i).1 := by
  unfold customer_del_execute
  cases hf : s.subscriptions.find? (fun r => r.id == i) with
  | none => exact h
  | some row =>
    unfold storeInv at h ⊢
    exact List.Pairwise.sublist (List.filter_sublist _) h

/-! ## Theorems -/

/-- C1: every store reachable through the registrar
(`join_funclub_execute`) and the terminator (`customer_del_execute`)
from a store satisfying the no-overlap invariant satisfies it too: for
every `(customer_id, group_id)` pair, no two `Subscription` rows have
intersecting half-open `[start_date, end_date)` intervals. -/
theorem reachable_storeInv (s0 s : Store) (h0 : storeInv s0)
    (h : Reachable s0 s) : storeInv s := by
  induction h with
  | refl => exact h0
  | join t cid req _ ih => exact storeInv_join_preserved t cid req ih
  | del t i _ ih => exact storeInv_del_preserved t i ih

/-- Witness for `reachable_storeInv`: starting from a concrete invariant
store and taking one registrar step keeps the invariant. -/
theorem reachable_storeInv_witness :
    storeInv ((join_funclub_execute
      ⟨[⟨1, "Alice", 2010⟩], [⟨5, "c", "e", "p", "a"⟩], [⟨1, "Gold", 6⟩],
        [], [], [], []⟩ 5 ⟨some 1, "Alice", "Gold", "2024-01-01"⟩).1) :=
  reachable_storeInv _ _ (by decide)
    (Reachable.join _ 5 _ Reachable.refl)

/-- C2: the overlap check returns `true` iff some existing `Subscription`
row for the same `(customer_id, group_id)` pair satisfies
`existing.start_date < candidateEnd AND candidateStart < existing.end_date`
(strict on both sides); consequently rows adjacent to the candidate
interval (one's end equal to the other's start) are never reported as
overlapping, and a registration that passes the preceding checks with no
reported overlap is accepted. -/
theorem overlap_query_spec :
    (∀ (subs : List SubRow) (cid gid sd ed : Int),
        overlap_query subs cid gid sd ed = true ↔
          ∃ r ∈ subs, r.customer_id = cid ∧ r.group_id = gid ∧
            r.start_date < ed ∧ sd < r.end_date)
  ∧ (∀ (subs : List SubRow) (cid gid sd ed : Int),
        (∀ r ∈ subs, r.customer_id = cid → r.group_id = gid →
          r.end_date = sd ∨ r.start_date = ed) →
        overlap_query subs cid gid sd ed = false)
  ∧ (∀ (s : Store) (cid : Int) (req : JoinRequest) (sid : Int)
        (startOrd : Nat) (course : CourseRow) (artist : ArtistRow)
        (endOrd : Int),
        req.subscription_id = some sid → 0 < sid →
        s.subscriptions.find? (fun r => r.id == sid) = none →
        strptime_date req.start_date = some startOrd →
        s.courses.find? (fun c => c.course_name == req.course) = some course →
        computeEndDate (startOrd : Int) course.duration_months = some endOrd →
        s.artists.find? (fun a => a.name == req.artist) = some artist →
        overlap_query s.subscriptions cid artist.id (startOrd : Int) endOrd
          = false →
        (join_funclub_execute s cid req).2 = .ok ()) := by
  refine ⟨?_, ?_, ?_⟩
  · intro subs cid gid sd ed
    simp [overlap_query, List.find?_isSome, and_assoc]
  · intro subs cid gid sd ed h
    have hn : subs.find? (fun r =>
        r.customer_id == cid && r.group_id == gid &&
        decide (r.start_date < ed) && decide (r.end_date > sd)) = none := by
      rw [List.find?_eq_none]
      intro r hr hp
      simp only [Bool.and_eq_true, beq_iff_eq, decide_eq_true_eq, gt_iff_lt] at hp
      rcases h r hr hp.1.1.1 hp.1.1.2 with he | hs
      · omega
      · omega
    simp [overlap_query, hn]
  · intro s cid req sid startOrd course artist endOrd hreq hpos hdup hdate
      hcourse hend hartist hov
    have h0 : ¬ sid ≤ 0 := by omega
    simp [join_funclub_execute, join_core, hreq, h0, hdup, hdate, hcourse,
      hend, hartist, hov]

/-- Witness for `overlap_query_spec`: a back-to-back pair (existing row
ends exactly when the candidate starts) is not reported as overlapping. -/
theorem overlap_query_spec_witness :
    overlap_query [⟨1, 5, 1, 1, 700000, 700030⟩] 5 1 700030 700060 = false :=
  overlap_query_spec.2.1 [⟨1, 5, 1, 1, 700000, 700030⟩] 5 1 700030 700060
    (by decide)

/-- C6: terminating a subscription id that matches no `Subscription` row
fails with NotFound and leaves the store unchanged; terminating an
existing id — ids being unique, as the schema requires — deletes exactly
that one row and returns its `customer_id`. -/
theorem customer_del_execute_spec :
    (∀ (s : Store) (i : Int), (∀ r ∈ s.subscriptions, r.id ≠ i) →
        customer_del_execute s i = (s, .error .notFound))
  ∧ (∀ (s : Store) (i : Int) (r : SubRow),
        (s.subscriptions.map SubRow.id).Nodup →
        r ∈ s.subscriptions → r.id = i →
        ∃ l1 l2, s.subscriptions = l1 ++ r :: l2 ∧
          customer_del_execute s i =
            ({ s with subscriptions := l1 ++ l2 }, .ok r.customer_id)) := by
  constructor
  · intro s i h
    have hn : s.subscriptions.find? (fun r => r.id == i) = none := by
      rw [List.find?_eq_none]
      intro x hx
      simp [h x hx]
    simp [customer_del_execute, hn]
  · intro s i r hnodup hr hid
    obtain ⟨l1, l2, hsplit⟩ := List.append_of_mem hr
    refine ⟨l1, l2, hsplit, ?_⟩
    rw [hsplit, List.map_append, List.map_cons] at hnodup
    have hdisj := List.disjoint_of_nodup_append hnodup
    have hnotl2 := (List.nodup_cons.mp hnodup.of_append_right).1
    have h1 : ∀ x ∈ l1, x.id ≠ i := by
      intro x hx hxi
      exact hdisj (List.mem_map_of_mem SubRow.id hx)
        (by rw [hxi, ← hid]; exact List.mem_cons_self _ _)
    have h2 : ∀ x ∈ l2, x.id ≠ i := by
      intro x hx hxi
      apply hnotl2
      have hrx : r.id = x.id := by rw [hid, hxi]
      rw [hrx]
      exact List.mem_map_of_mem SubRow.id hx
    have hfind : s.subscriptions.find? (fun x => x.id == i) = some r := by
      rw [hsplit, List.find?_append]
      have hl1 : l1.find? (fun x => x.id == i) = none := by
        rw [List.find?_eq_none]
        intro x hx
        simp [h1 x hx]
      rw [hl1, Option.none_or]
      simp [List.find?_cons, hid]
    have hfilt : s.subscriptions.filter (fun x => !(x.id == i)) = l1 ++ l2 := by
      rw [hsplit, List.filter_append]
      have hl1 : l1.filter (fun x => !(x.id == i)) = l1 :=
        List.filter_eq_self.mpr (fun x hx => by simp [h1 x hx])
      have hl2 : (r :: l2).filter (fun x => !(x.id == i)) = l2 := by
        have hcons : (r :: l2).filter (fun x => !(x.id == i))
            = l2.filter (fun x => !(x.id == i)) := by
          simp [List.filter_cons, hid]
        rw [hcons]
        exact List.filter_eq_self.mpr (fun x hx => by simp [h2 x hx])
      rw [hl1, hl2]
    simp [customer_del_execute, hfind, hfilt]

/-- Witness for `customer_del_execute_spec`: deleting id 7 from a store
with no subscriptions reports NotFound and changes nothing. -/
theorem customer_del_execute_spec_witness :
    customer_del_execute ⟨[], [], [], [], [], [], []⟩ 7
      = (⟨[], [], [], [], [], [], []⟩, .error .notFound) :=
  customer_del_execute_spec.1 ⟨[], [], [], [], [], [], []⟩ 7 (by simp)

/-- C10: a successful termination deletes only from the `Subscription`
table: the `Artist`, `Customer`, `SubscriptionCourse`, `EventType`,
`Event` and `EventParticipation` tables are unchanged, so every
`EventParticipation` row — including those referencing the deleted
subscription id — is preserved as an orphan. -/
theorem customer_del_frame (s : Store) (i : Int) (c : Int)
    (h : (customer_del_execute s i).2 = .ok c) :
    (customer_del_execute s i).1.artists = s.artists ∧
    (customer_del_execute s i).1.customers = s.customers ∧
    (customer_del_execute s i).1.courses = s.courses ∧
    (customer_del_execute s i).1.eventTypes = s.eventTypes ∧
    (customer_del_execute s i).1.events = s.events ∧
    (customer_del_execute s i).1.participations = s.participations ∧
    ∀ p ∈ s.participations,
      p ∈ (customer_del_execute s i).1.participations := by
  unfold customer_del_execute at h ⊢
  cases hf : s.subscriptions.find? (fun r => r.id == i) with
  | none => simp [hf] at h
  | some row => simp [hf]

/-- Witness for `customer_del_frame`: deleting the only subscription of a
one-row store preserves the participation row that references it. -/
theorem customer_del_frame_witness :
    (customer_del_execute
      ⟨[], [], [], [⟨1, 5, 1, 1, 700000, 700030⟩], [], [],
        [⟨1, 9, "2024-05-05"⟩]⟩ 1).1.participations = [⟨1, 9, "2024-05-05"⟩] :=
  (customer_del_frame
    ⟨[], [], [], [⟨1, 5, 1, 1, 700000, 700030⟩], [], [],
      [⟨1, 9, "2024-05-05"⟩]⟩ 1 5 (by decide)).2.2.2.2.2.1

/-- C7: a registration request whose subscription id equals the id of an
existing `Subscription` row fails with DuplicateId and leaves the store
unchanged (row ids being positive, as the registrar itself enforces on
insert). -/
theorem join_duplicate_id_spec (s : Store) (cid : Int) (req : JoinRequest)
    (sid : Int) (r : SubRow)
    (hreq : req.subscription_id = some sid) (hr : r ∈ s.subscriptions)
    (hid : r.id = sid) (hpos : ∀ x ∈ s.subscriptions, 0 < x.id) :
    join_funclub_execute s cid req = (s, .error .duplicateId) := by
  have h0 : ¬ sid ≤ 0 := by have := hpos r hr; omega
  have hdup : (s.subscriptions.find? (fun x => x.id == sid)).isSome :=
    List.find?_isSome.mpr ⟨r, hr, by simp [hid]⟩
  simp [join_funclub_execute, join_core, hreq, h0, hdup]

/-- Witness for `join_duplicate_id_spec`: re-registering id 1 against a
store whose only subscription already has id 1 is rejected. -/
theorem join_duplicate_id_spec_witness :
    join_funclub_execute
        ⟨[], [], [], [⟨1, 5, 1, 1, 700000, 700030⟩], [], [], []⟩ 5
        ⟨some 1, "Alice", "Gold", "2024-01-01"⟩
      = (⟨[], [], [], [⟨1, 5, 1, 1, 700000, 700030⟩], [], [], []⟩,
          .error .duplicateId) :=
  join_duplicate_id_spec _ 5 _ 1 ⟨1, 5, 1, 1, 700000, 700030⟩ rfl
    (by simp) rfl (by decide)

/-- The registrar never reads or writes the `Customer` table: replacing
it changes nothing else in the outcome. -/
theorem join_customers_comm (s : Store) (c : List CustomerRow) (cid : Int)
    (req : JoinRequest) :
    join_funclub_execute { s with customers := c } cid req
      = ({ (join_funclub_execute s cid req).1 with customers := c },
         (join_funclub_execute s cid req).2) := by
  unfold join_funclub_execute
  cases hj : join_core s.artists s.courses s.subscriptions cid req <;>
    simp [hj]

/-- C9: the outcome of registration is independent of the `Customer`
table: two stores that differ only in `Customer` rows give the same
result for the same request and customer id (including a customer id
with no `Customer` row), and neither run touches the `Customer` table. -/
theorem join_customer_independent (s1 s2 : Store) (cid : Int)
    (req : JoinRequest)
    (ha : s1.artists = s2.artists) (hco : s1.courses = s2.courses)
    (hsub : s1.subscriptions = s2.subscriptions)
    (het : s1.eventTypes = s2.eventTypes) (hev : s1.events = s2.events)
    (hp : s1.participations = s2.participations) :
    (join_funclub_execute s1 cid req).2
        = (join_funclub_execute s2 cid req).2 ∧
    (join_funclub_execute s1 cid req).1.customers = s1.customers ∧
    (join_funclub_execute s2 cid req).1.customers = s2.customers ∧
    (join_funclub_execute s1 cid req).1.artists
        = (join_funclub_execute s2 cid req).1.artists ∧
    (join_funclub_execute s1 cid req).1.courses
        = (join_funclub_execute s2 cid req).1.courses ∧
    (join_funclub_execute s1 cid req).1.subscriptions
        = (join_funclub_execute s2 cid req).1.subscriptions ∧
    (join_funclub_execute s1 cid req).1.eventTypes
        = (join_funclub_execute s2 cid req).1.eventTypes ∧
    (join_funclub_execute s1 cid req).1.events
        = (join_funclub_execute s2 cid req).1.events ∧
    (join_funclub_execute s1 cid req).1.participations
        = (join_funclub_execute s2 cid req).1.participations := by
  have hcore : join_core s2.artists s2.courses s2.subscriptions cid req
      = join_core s1.artists s1.courses s1.subscriptions cid req := by
    rw [ha, hco, hsub]
  unfold join_funclub_execute
  rw [hcore]
  cases hj : join_core s1.artists s1.courses s1.subscriptions cid req with
  | error e => exact ⟨rfl, rfl, rfl, ha, hco, hsub, het, hev, hp⟩
  | ok row =>
    refine ⟨rfl, rfl, rfl, ha, hco, ?_, het, hev, hp⟩
    simp only [hsub]

/-- Witness for `join_customer_independent`: the same request gives the
same outcome whether or not customer 5 has a `Customer` row. -/
theorem join_customer_independent_witness :
    (join_funclub_execute
        ⟨[⟨1, "Alice", 2010⟩], [], [⟨1, "Gold", 6⟩], [], [], [], []⟩ 5
        ⟨some 1, "Alice", "Gold", "2024-01-01"⟩).2
      = (join_funclub_execute
        ⟨[⟨1, "Alice", 2010⟩], [⟨5, "n", "e", "p", "a"⟩], [⟨1, "Gold", 6⟩],
          [], [], [], []⟩ 5
        ⟨some 1, "Alice", "Gold", "2024-01-01"⟩).2 :=
  (join_customer_independent _ _ 5 _ rfl rfl rfl rfl rfl rfl).1

/-- C3 counterexample: 9999-12-31 is a valid start date, but with
durationMonths = 1 the date addition leaves Python's date range and
raises `OverflowError` instead of producing start + 30 days. -/
theorem computeEndDate_overflow_cex :
    1 ≤ (toOrdinal 9999 12 31 : Int) ∧
    (toOrdinal 9999 12 31 : Int) ≤ (maxDateOrdinal : Int) ∧
    computeEndDate (toOrdinal 9999 12 31) 1 = none ∧
    computeEndDate (toOrdinal 9999 12 31) 1
      ≠ some ((toOrdinal 9999 12 31 : Int) + 30 * 1) := by
  refine ⟨by decide, by decide, by decide, by decide⟩

/-- C3 (amended): for every valid start date and durationMonths ≥ 1
whose end stays within Python's date range, the computed end date is
exactly start + 30·durationMonths days — a fixed 30-days-per-month
rule, not calendar-month arithmetic. -/
theorem computeEndDate_spec (start k : Int) (hs : 1 ≤ start) (hk : 1 ≤ k)
    (hb : start + 30 * k ≤ (maxDateOrdinal : Int)) :
    computeEndDate start k = some (start + 30 * k) := by
  unfold computeEndDate
  rw [if_pos]
  · simp [Int.mul_comm]
  · constructor <;> omega

/-- Witness for `computeEndDate_spec`: six months from 2024-01-01
(ordinal 738886) end exactly 180 days later. -/
theorem computeEndDate_spec_witness :
    computeEndDate 738886 6 = some (738886 + 30 * 6) :=
  computeEndDate_spec 738886 6 (by norm_num) (by norm_num) (by decide)

/-- C5 evidence (code bug): when the submitted course name (first case)
or artist name (second case) matches no row, the registrar does not
surface a distinct lookup failure: the `fetchone()` result is `None`
and subscripting it is an unhandled `TypeError` (`lookupCrash`), though
no write occurs. -/
theorem join_missing_name_crashes :
    (join_funclub_execute ⟨[⟨1, "Alice", 2010⟩], [], [], [], [], [], []⟩ 5
        ⟨some 1, "Alice", "Gold", "2024-01-01"⟩
      = (⟨[⟨1, "Alice", 2010⟩], [], [], [], [], [], []⟩,
          .error .lookupCrash))
  ∧ (join_funclub_execute ⟨[], [], [⟨1, "Gold", 6⟩], [], [], [], []⟩ 5
        ⟨some 1, "Bob", "Gold", "2024-01-01"⟩
      = (⟨[], [], [⟨1, "Gold", 6⟩], [], [], [], []⟩,
          .error .lookupCrash)) := by
  constructor <;> decide

/-- C4 counterexample: in the scenario's store, the first registration
(customer 5, artist "Alice", 6-month course, start 2024-01-01) succeeds,
but the persisted end date is 2024-06-29 — 180 days after the start —
not 2024-07-30; and 2024-07-30 is not 181 days after 2024-01-01
either. -/
theorem join_demo_cex :
    ((join_funclub_execute
        ⟨[⟨1, "Alice", 2010⟩], [⟨5, "n", "e", "p", "a"⟩], [⟨1, "Gold", 6⟩],
          [], [], [], []⟩ 5 ⟨some 1, "Alice", "Gold", "2024-01-01"⟩).2
      = .ok ())
  ∧ ((join_funclub_execute
        ⟨[⟨1, "Alice", 2010⟩], [⟨5, "n", "e", "p", "a"⟩], [⟨1, "Gold", 6⟩],
          [], [], [], []⟩ 5 ⟨some 1, "Alice", "Gold", "2024-01-01"⟩).1.subscriptions.map SubRow.end_date
      = [((toOrdinal 2024 6 29 : Nat) : Int)])
  ∧ ¬((join_funclub_execute
        ⟨[⟨1, "Alice", 2010⟩], [⟨5, "n", "e", "p", "a"⟩], [⟨1, "Gold", 6⟩],
          [], [], [], []⟩ 5 ⟨some 1, "Alice", "Gold", "2024-01-01"⟩).1.subscriptions.map SubRow.end_date
      = [((toOrdinal 2024 7 30 : Nat) : Int)])
  ∧ toOrdinal 2024 6 29 = toOrdinal 2024 1 1 + 180
  ∧ toOrdinal 2024 7 30 ≠ toOrdinal 2024 1 1 + 181 := by
  refine ⟨by decide, by decide, by decide, by decide, by decide⟩

/-- C4 (amended): with customer 5, artist "Alice" and a 6-month course,
registering at 2024-01-01 succeeds and persists a row ending 2024-06-29
(180 days later); a second registration for the same customer and
artist at 2024-06-01 fails with DuplicateMembership; a third at
2024-08-01 succeeds, ending 2025-01-28. -/
theorem join_demo_scenario :
    (join_funclub_execute
        ⟨[⟨1, "Alice", 2010⟩], [⟨5, "n", "e", "p", "a"⟩], [⟨1, "Gold", 6⟩],
          [], [], [], []⟩ 5 ⟨some 1, "Alice", "Gold", "2024-01-01"⟩
      = (⟨[⟨1, "Alice", 2010⟩], [⟨5, "n", "e", "p", "a"⟩], [⟨1, "Gold", 6⟩],
          [⟨1, 5, 1, 1, ((toOrdinal 2024 1 1 : Nat) : Int),
            ((toOrdinal 2024 6 29 : Nat) : Int)⟩], [], [], []⟩, .ok ()))
  ∧ (join_funclub_execute
        ⟨[⟨1, "Alice", 2010⟩], [⟨5, "n", "e", "p", "a"⟩], [⟨1, "Gold", 6⟩],
          [⟨1, 5, 1, 1, ((toOrdinal 2024 1 1 : Nat) : Int),
            ((toOrdinal 2024 6 29 : Nat) : Int)⟩], [], [], []⟩ 5
        ⟨some 2, "Alice", "Gold", "2024-06-01"⟩
      = (⟨[⟨1, "Alice", 2010⟩], [⟨5, "n", "e", "p", "a"⟩], [⟨1, "Gold", 6⟩],
          [⟨1, 5, 1, 1, ((toOrdinal 2024 1 1 : Nat) : Int),
            ((toOrdinal 2024 6 29 : Nat) : Int)⟩], [], [], []⟩,
          .error .duplicateMembership))
  ∧ (join_funclub_execute
        ⟨[⟨1, "Alice", 2010⟩], [⟨5, "n", "e", "p", "a"⟩], [⟨1, "Gold", 6⟩],
          [⟨1, 5, 1, 1, ((toOrdinal 2024 1 1 : Nat) : Int),
            ((toOrdinal 2024 6 29 : Nat) : Int)⟩], [], [], []⟩ 5
        ⟨some 3, "Alice", "Gold", "2024-08-01"⟩
      = (⟨[⟨1, "Alice", 2010⟩], [⟨5, "n", "e", "p", "a"⟩], [⟨1, "Gold", 6⟩],
          [⟨1, 5, 1, 1, ((toOrdinal 2024 1 1 : Nat) : Int),
            ((toOrdinal 2024 6 29 : Nat) : Int)⟩,
           ⟨3, 5, 1, 1, ((toOrdinal 2024 8 1 : Nat) : Int),
            ((toOrdinal 2025 1 28 : Nat) : Int)⟩], [], [], []⟩, .ok ())) := by
  refine ⟨by decide, by decide, by decide⟩

/-- Every month length is at most 31 days. -/
theorem daysInMonth_le_31 (y m : Nat) : daysInMonth y m ≤ 31 := by
  unfold daysInMonth
  repeat' split
  all_goals omega

/-- A zero-padded two-digit month in `01`–`12` is matched whole by the
`%m` regex alternation. -/
theorem monthAlt_padded (m1 m2 : Char) (rest : List Char)
    (hm1 : isDig m1 = true) (hm2 : isDig m2 = true)
    (hlo : 1 ≤ 10 * dv m1 + dv m2) (hhi : 10 * dv m1 + dv m2 ≤ 12) :
    monthAlt (m1 :: m2 :: rest) = some (10 * dv m1 + dv m2, rest) := by
  simp only [isDig, Bool.and_eq_true, decide_eq_true_eq] at hm1 hm2
  have heq : monthAlt (m1 :: m2 :: rest) =
      (if m1.toNat = 49 then
        (if 48 ≤ m2.toNat ∧ m2.toNat ≤ 50 then some (10 + dv m2, rest)
         else some (1, m2 :: rest))
      else if m1.toNat = 48 then
        (if 49 ≤ m2.toNat ∧ m2.toNat ≤ 57 then some (dv m2, rest) else none)
      else if 50 ≤ m1.toNat ∧ m1.toNat ≤ 57 then some (dv m1, m2 :: rest)
      else none) := rfl
  rw [heq]
  unfold dv at hlo hhi ⊢
  have hcase : m1.toNat = 48 ∨ m1.toNat = 49 := by omega
  rcases hcase with hc | hc
  · rw [if_neg (by omega), if_pos (by omega), if_pos (by omega)]
    simp only [Option.some.injEq, Prod.mk.injEq, and_true]
    all_goals omega
  · rw [if_pos (by omega), if_pos (by omega)]
    simp only [Option.some.injEq, Prod.mk.injEq, and_true]
    all_goals omega

/-- A zero-padded two-digit day in `01`–`31` followed by end of input is
matched whole by the `%d` regex alternation. -/
theorem dayAlt_padded (d1 d2 : Char)
    (hd1 : isDig d1 = true) (hd2 : isDig d2 = true)
    (hlo : 1 ≤ 10 * dv d1 + dv d2) (hhi : 10 * dv d1 + dv d2 ≤ 31) :
    dayAlt [d1, d2] = some (10 * dv d1 + dv d2, []) := by
  simp only [isDig, Bool.and_eq_true, decide_eq_true_eq] at hd1 hd2
  have heq : dayAlt [d1, d2] =
      (if d1.toNat = 51 then
        (if 48 ≤ d2.toNat ∧ d2.toNat ≤ 49 then some (30 + dv d2, ([] : List Char))
         else some (3, [d2]))
      else if 49 ≤ d1.toNat ∧ d1.toNat ≤ 50 then
        (if isDig d2 then some (10 * dv d1 + dv d2, ([] : List Char))
         else some (dv d1, [d2]))
      else if d1.toNat = 48 then
        (if 49 ≤ d2.toNat ∧ d2.toNat ≤ 57 then some (dv d2, ([] : List Char))
         else none)
      else if 52 ≤ d1.toNat ∧ d1.toNat ≤ 57 then some (dv d1, [d2])
      else none) := rfl
  rw [heq]
  unfold dv at hlo hhi ⊢
  have hcase : d1.toNat = 48 ∨ d1.toNat = 49 ∨ d1.toNat = 50 ∨
      d1.toNat = 51 := by omega
  rcases hcase with hc | hc | hc | hc
  · rw [if_neg (by omega), if_neg (by omega), if_pos (by omega),
      if_pos (by omega)]
    simp only [Option.some.injEq, Prod.mk.injEq, and_true]
    all_goals omega
  · rw [if_neg (by omega), if_pos (by omega),
      if_pos (by simp only [isDig, Bool.and_eq_true, decide_eq_true_eq]; omega)]
  · rw [if_neg (by omega), if_pos (by omega),
      if_pos (by simp only [isDig, Bool.and_eq_true, decide_eq_true_eq]; omega)]
  · rw [if_pos (by omega), if_pos (by omega)]
    simp only [Option.some.injEq, Prod.mk.injEq, and_true]
    all_goals omega

/-- The registrar's outcome is an error exactly when the core validation
errs, and every error leaves the store untouched. -/
theorem join_execute_error_iff (s : Store) (cid : Int) (req : JoinRequest)
    (e : RegError) :
    ((join_funclub_execute s cid req).2 = .error e ↔
      join_core s.artists s.courses s.subscriptions cid req = .error e) ∧
    ((join_funclub_execute s cid req).2 = .error e →
      (join_funclub_execute s cid req).1 = s) := by
  unfold join_funclub_execute
  cases hj : join_core s.artists s.courses s.subscriptions cid req <;>
    simp [hj]

/-- Once the id checks have passed, the core validation reports
InvalidDate exactly when the start-date string fails the `%Y-%m-%d`
parse. -/
theorem join_core_invalidDate_iff (artists : List ArtistRow)
    (courses : List CourseRow) (subs : List SubRow) (cid : Int)
    (req : JoinRequest) (sid : Int)
    (hreq : req.subscription_id = some sid) (hpos : ¬ sid ≤ 0)
    (hdup : subs.find? (fun r => r.id == sid) = none) :
    join_core artists courses subs cid req = .error .invalidDate ↔
      strptime_date req.start_date = none := by
  cases hd : strptime_date req.start_date with
  | none => simp [join_core, hreq, hpos, hdup, hd]
  | some d =>
    constructor
    · intro h
      exfalso
      unfold join_core at h
      repeat' split at h
      all_goals simp_all
    · intro h
      exact absurd h (by simp)

/-- C8 counterexample: `"2024-1-1"` is not a strict `YYYY-MM-DD` string
(month and day are not zero-padded), yet the code's `%Y-%m-%d` parse
accepts it, and a registration carrying it succeeds instead of failing
with InvalidDate. -/
theorem start_date_strictness_cex :
    strictDateSpec "2024-1-1" = false ∧
    strptime_date "2024-1-1" = some (toOrdinal 2024 1 1) ∧
    (join_funclub_execute
        ⟨[⟨1, "Alice", 2010⟩], [], [⟨1, "Gold", 6⟩], [], [], [], []⟩ 5
        ⟨some 1, "Alice", "Gold", "2024-1-1"⟩).2 = .ok () := by
  refine ⟨by decide, by decide, by decide⟩

/-- C8 (amended): once the id checks pass, registration fails with
InvalidDate exactly when the start-date string fails Python's
`%Y-%m-%d` parse — a four-digit year, a one- or two-digit month and
day (zero padding is NOT required), and a valid calendar date in years
1–9999 — and on that failure the store is unchanged; every valid strict
`YYYY-MM-DD` calendar date is accepted by the parse. -/
theorem start_date_validation_spec :
    (∀ (s : Store) (cid : Int) (req : JoinRequest) (sid : Int),
        req.subscription_id = some sid → 0 < sid →
        s.subscriptions.find? (fun r => r.id == sid) = none →
        (((join_funclub_execute s cid req).2 = .error .invalidDate ↔
            strptime_date req.start_date = none) ∧
         ((join_funclub_execute s cid req).2 = .error .invalidDate →
            (join_funclub_execute s cid req).1 = s)))
  ∧ (∀ str : String, strictDateSpec str = true →
        (strptime_date str).isSome = true) := by
  constructor
  · intro s cid req sid hreq hpos hdup
    have hiff := join_core_invalidDate_iff s.artists s.courses
      s.subscriptions cid req sid hreq (by omega) hdup
    have hexec := join_execute_error_iff s cid req .invalidDate
    exact ⟨hexec.1.trans hiff, hexec.2⟩
  · intro str h
    unfold strictDateSpec at h
    split at h
    next y1 y2 y3 y4 c1 m1 m2 c2 d1 d2 heq =>
      simp only [Bool.and_eq_true, beq_iff_eq, decide_eq_true_eq] at h
      obtain ⟨⟨⟨⟨⟨⟨⟨⟨⟨⟨⟨⟨⟨⟨hy1, hy2⟩, hy3⟩, hy4⟩, hm1⟩, hm2⟩, hd1⟩, hd2⟩,
        hs1⟩, hs2⟩, hy⟩, hmlo⟩, hmhi⟩, hdlo⟩, hdhi⟩ := h
      have hsd : strptime_date str =
          (if isDig y1 ∧ isDig y2 ∧ isDig y3 ∧ isDig y4 ∧ c1.toNat = 45 then
            match monthAlt [m1, m2, c2, d1, d2] with
            | some (m, c3 :: rest2) =>
              if c3.toNat = 45 then
                match dayAlt rest2 with
                | some (d, []) =>
                  if 1 ≤ 1000 * dv y1 + 100 * dv y2 + 10 * dv y3 + dv y4 ∧
                      d ≤ daysInMonth
                        (1000 * dv y1 + 100 * dv y2 + 10 * dv y3 + dv y4) m
                  then some (toOrdinal
                    (1000 * dv y1 + 100 * dv y2 + 10 * dv y3 + dv y4) m d)
                  else none
                | _ => none
              else none
            | _ => none
          else none) := by
        unfold strptime_date
        rw [heq]
      rw [hsd]
      simp [monthAlt_padded m1 m2 [c2, d1, d2] hm1 hm2 hmlo hmhi,
        dayAlt_padded d1 d2 hd1 hd2 hdlo
          (le_trans hdhi (daysInMonth_le_31 _ _)),
        hy1, hy2, hy3, hy4, hs1, hs2, hy, hdhi]
    next => exact absurd h (by simp)

/-- Witness for `start_date_validation_spec`: the strict date
2024-02-29 (a leap day) is accepted by the code's date parse. -/
theorem start_date_validation_spec_witness :
    (strptime_date "2024-02-29").isSome = true :=
  start_date_validation_spec.2 "2024-02-29" (by decide)

end FunClub
